import Mathlib

/-!
Verification of the Prometh-Review pull-request reviewer
(`src/prometh/prometh_cli.py`), as a shallow embedding in Lean 4.

Pure data flow is translated directly; external collaborators (the OpenAI
backend, a self-hosted LLM server, the local `git` tool, `os.environ`) are
passed in as explicit oracles/parameters.  Python exceptions are modelled
with `Except PyError`.
-/

namespace Prometh

/-- Python exceptions raised by the code paths under study. -/
inductive PyError where
  | keyError : PyError
  | valueError : String → PyError
  | typeError : String → PyError
  | exception : String → PyError
deriving DecidableEq, Repr

/-- A chat message, `{"role": ..., "content": ...}` dicts in the source. -/
structure Message where
  role : String
  content : String
deriving DecidableEq, Repr

/-- Token accounting returned by the hosted provider (`chat_completion.usage`). -/
structure UsageMetrics where
  prompt_tokens : Nat
  completion_tokens : Nat
  total_tokens : Nat
deriving DecidableEq, Repr

/-- `OPENAI_GPT_TYPES` (prometh_cli.py:14-19): the closed set of hosted
OpenAI model identifiers, embedded as a list of the same four strings. -/
def OPENAI_GPT_TYPES : List String :=
  ["gpt-3.5-turbo", "gpt-3.5-turbo-16k", "gpt-3.5-turbo-0301", "gpt-4"]

/-- Python membership test `gpt_type in OPENAI_GPT_TYPES` (exact string
equality on a set of strings). -/
def isOpenAIGPTType (gpt_type : String) : Bool :=
  OPENAI_GPT_TYPES.contains gpt_type

/-- The external world seen by `generate_llm_response`: the optional
`OPENAI_API_KEY` environment entry, the hosted OpenAI chat-completion
endpoint (returns content and usage), and the self-hosted server reached
at `llm_url` (returns content only). -/
structure LLMEnv where
  openaiKey : Option String
  hostedBackend : String → List Message → String × UsageMetrics
  selfHostedBackend : Option String → String → List Message → String

/-- `generate_llm_response` (prometh_cli.py:141-163).  Dispatch: a model
identifier in `OPENAI_GPT_TYPES` goes to the hosted OpenAI client (after
checking `OPENAI_API_KEY`) and returns `some` usage metrics; any other
identifier is POSTed to the self-hosted server and returns `none` for
usage metrics. -/
def generate_llm_response (env : LLMEnv) (gpt_type : String)
    (messages : List Message) (llm_url : Option String) :
    Except PyError (String × Option UsageMetrics) :=
  if isOpenAIGPTType gpt_type then
    match env.openaiKey with
    | Option.none => Except.error (PyError.valueError "OPENAI_API_KEY is not set")
    | Option.some _ =>
        let r := env.hostedBackend gpt_type messages
        Except.ok (r.1, Option.some r.2)
  else
    let response := env.selfHostedBackend llm_url gpt_type messages
    Except.ok (response, Option.none)

/-- Python runtime values, distinguishing `None` from a `str`, for the
`self.stash_token is None` check. -/
inductive PyValue where
  | pyNone : PyValue
  | str : String → PyValue
deriving DecidableEq, Repr

/-- The state stored by `StashAPI.__init__` (prometh_cli.py:90-99). -/
structure StashAPI where
  stash_token : String
  base_url : String
  project_key : String
  repo_slug : String
  pr_id : Int
  headers : List (String × String)
deriving DecidableEq, Repr

/-- `StashAPI.__init__` (prometh_cli.py:90-100): reads
`os.environ["STASH_HTTP_ACCESS_TOKEN"]` — `os.environ` maps strings to
strings and raises `KeyError` when the variable is absent — then compares
the stored value against `None`, and stores the connection fields and the
request headers.  No HTTP request is made during construction. -/
def StashAPI.init (environ : String → Option String)
    (base_url project_key repo_slug : String) (pr_id : Int) :
    Except PyError StashAPI :=
  match environ "STASH_HTTP_ACCESS_TOKEN" with
  | Option.none => Except.error PyError.keyError
  | Option.some tok =>
      if PyValue.str tok = PyValue.pyNone then
        Except.error (PyError.valueError "STASH_HTTP_ACCESS_TOKEN is not set")
      else
        Except.ok { stash_token := tok, base_url := base_url,
                    project_key := project_key, repo_slug := repo_slug,
                    pr_id := pr_id,
                    headers := [("Authorization", "Bearer " ++ tok),
                                ("Accept", "application/json")] }

/-- The PR-metadata JSON returned by the backend (prometh_cli.py:102-106):
`title` and `links.self[0].href` are read unconditionally; the
`description` key may be absent (`Option.none`). -/
structure PrInfoResponse where
  title : String
  descriptionField : Option String
  selfHref : String
deriving DecidableEq, Repr

/-- The PR-diff JSON returned by the backend (prometh_cli.py:108-112). -/
structure PrDiffResponse where
  toHash : String
  fromHash : String
deriving DecidableEq, Repr

/-- The dict returned by `StashAPI.get_data` (prometh_cli.py:132-138). -/
structure PrData where
  to_commit : String
  from_commit : String
  pr_title : String
  pr_description : String
  pr_link : String
deriving DecidableEq, Repr

/-- `StashAPI.get_data` (prometh_cli.py:114-138), abstracting the two HTTP
responses as already-parsed records: the optional `description` key is read
under `try`/`except KeyError`, defaulting to `""`, so a missing description
never fails the fetch. -/
def StashAPI.get_data (info : PrInfoResponse) (diff : PrDiffResponse) : PrData :=
  { to_commit := diff.toHash
    from_commit := diff.fromHash
    pr_title := info.title
    pr_description :=
      match info.descriptionField with
      | Option.some d => d
      | Option.none => ""
    pr_link := info.selfHref }

/-- The fixed system instruction (prometh_cli.py:172-192, local `prompt`). -/
def review_prompt : String :=
  "As a tech reviewer, please provide an in-depth review of the\nfollowing pull request git diff data. Your task is to carefully analyze the title, body, and\nchanges made in the pull request and identify any problems that need addressing including \nsecurity issues. Please provide clear descriptions of each problem and offer constructive \nsuggestions for how to address them. Additionally, please consider ways to optimize the \nchanges made in the pull request. You should focus on providing feedback that will help\nimprove the quality of the codebase while also remaining concise and clear in your\nexplanations. Please note that unnecessary explanations or summaries should be avoided\nas they may delay the review process. Your feedback should be provided in a timely\nmanner, using language that is easy to understand and follow.\n\nYou are provided with the code changes (diffs) in a unidiff format.\n\nYour output should be a short summary of the changes and then a more detailed in a table format with the following columns:\n- Problem category: Bug, Security, Optimization, etc.\n- File name\n- Line number(s)\n- Description of the problem - where code can be included\n- Suggestion for improvement - where code can be included\n- Example code/solution\n"

/-- The PR-description user message (prometh_cli.py:194-199, an f-string over
`pr_title` and `pr_description`). -/
def pr_description_message (pr_title pr_description : String) : String :=
  "A description was given to help you assist in understand why these changes were made.\n    The description was provided in a markdown format.\n\n    Title: " ++ pr_title ++ "\n    Description: " ++ pr_description ++ "\n    "

/-- The diff user message (prometh_cli.py:203-206). -/
def diff_message (diff_output : String) : String :=
  "Diff in unidiff format:\n\n    " ++ diff_output ++ "\n    "

/-- The closing user instruction (prometh_cli.py:208-210). -/
def final_message : String :=
  "All code changes have been provided.\n    Please provide me with your concise code review based on all the changes, context & title provided\n    "

/-- The four seed messages built in `analyze_pr_with_GPT`
(prometh_cli.py:212-224): System, User(description), User(diff),
User(final instruction), in that order. -/
def seed_messages (pr_title pr_description diff_output : String) : List Message :=
  [{ role := "system", content := review_prompt },
   { role := "user", content := pr_description_message pr_title pr_description },
   { role := "user", content := diff_message diff_output },
   { role := "user", content := final_message }]

/-- `analyze_pr_with_GPT` (prometh_cli.py:166-234): builds the seed
messages, sends them once, appends the Assistant reply at the end, and
returns `(response, usage_metrics, messages)`.  `print_prompt` only
prints and does not affect the result. -/
def analyze_pr_with_GPT (env : LLMEnv)
    (pr_title pr_description diff_output gpt_type : String)
    (print_prompt : Bool := false) (llm_url : Option String := Option.none) :
    Except PyError (String × Option UsageMetrics × List Message) :=
  let _ := print_prompt
  let messages := seed_messages pr_title pr_description diff_output
  match generate_llm_response env gpt_type messages llm_url with
  | Except.error e => Except.error e
  | Except.ok (response, usage_metrics) =>
      Except.ok (response, usage_metrics,
                 messages ++ [{ role := "assistant", content := response }])

/-- Concrete external world used by the closed evaluation theorems:
`OPENAI_API_KEY` is set and both backends return fixed replies. -/
def exEnv : LLMEnv :=
  { openaiKey := Option.some "test-key"
    hostedBackend := fun _ _ => ("hosted reply", ⟨10, 5, 15⟩)
    selfHostedBackend := fun _ _ _ => "local reply" }

/-- Python-level call of `generate_llm_response` in which the third
positional argument may or may not be supplied at the call site
(`Option.none` = not supplied).  `llm_url` has no default value in the
definition (prometh_cli.py:141), so a call omitting it raises `TypeError`
before the function body runs. -/
def call_generate_llm_response (env : LLMEnv) (gpt_type : String)
    (messages : List Message) (llm_url_arg : Option (Option String)) :
    Except PyError (String × Option UsageMetrics) :=
  match llm_url_arg with
  | Option.none =>
      Except.error (PyError.typeError
        "generate_llm_response() missing 1 required positional argument: \x27llm_url\x27")
  | Option.some llm_url => generate_llm_response env gpt_type messages llm_url

/-- Result of one iteration of the interactive loop. -/
inductive TurnOutcome where
  | exited : List Message → TurnOutcome
  | replied : List Message → String → TurnOutcome
  | raised : List Message → PyError → TurnOutcome
deriving DecidableEq, Repr

/-- One iteration of the interactive loop in `main` (prometh_cli.py:332-340):
the sentinel `"exit"` terminates the session; otherwise the User message is
appended and `generate_llm_response(args.llm_type, messages)` is called —
note the call site supplies only 2 of the function's 3 required positional
arguments.  On an exception the loop body never reaches the second append. -/
def interactive_turn (env : LLMEnv) (llm_type : String)
    (messages : List Message) (user_input : String) : TurnOutcome :=
  if user_input = "exit" then TurnOutcome.exited messages
  else
    let messages1 := messages ++ [Message.mk "user" user_input]
    match call_generate_llm_response env llm_type messages1 Option.none with
    | Except.error e => TurnOutcome.raised messages1 e
    | Except.ok (response, _) =>
        TurnOutcome.replied (messages1 ++ [Message.mk "assistant" response]) response

/-- The name-status diff-tool command (prometh_cli.py:276): no
`--diff-filter` argument, so every change kind is reported. -/
def name_status_cmd (from_commit to_commit : String) : List String :=
  ["git", "diff", "--name-status", from_commit, to_commit]

/-- `_diff_filter` (prometh_cli.py:279-282): `"M"`, extended by `"A"` under
`--exhaustive-analysis`. -/
def diff_filter (exhaustive_analysis : Bool) : String :=
  if exhaustive_analysis then "M" ++ "A" else "M"

/-- The unified-diff tool command (prometh_cli.py:284-289): change-kind
filter, `-U<n>` context lines, the revision range, and — when file types
are excluded — the path-separator marker `"--"`, the pathspec `"."` and one
`:(exclude)*<t>` pathspec per excluded file type `t`. -/
def unified_diff_cmd (exhaustive_analysis : Bool) (nb_context_lines : Int)
    (from_commit to_commit : String) (exclude_file_types : List String) :
    List String :=
  ["git", "diff", "--diff-filter=" ++ diff_filter exhaustive_analysis,
   "-U" ++ toString nb_context_lines, from_commit, to_commit] ++
  (if exclude_file_types.length > 0 then
     ["--", "."] ++ exclude_file_types.map (fun t => ":(exclude)*" ++ t)
   else [])

/-- One changed file as seen by the external diff tool: change kind
(`'A'`/`'M'`/`'D'`/...), path, and the unified-diff hunk text for it. -/
structure FileChange where
  kind : Char
  path : String
  hunk : String
deriving DecidableEq, Repr

/-- Model of the external `git` tool (an external collaborator, not
repository code): name-status output is one `<kind>\t<path>` line per
change, with no change-kind filter applied. -/
def git_name_status (changes : List FileChange) : String :=
  String.join (changes.map (fun c => String.singleton c.kind ++ "\t" ++ c.path ++ "\n"))

/-- Model of the external tool's pathspec handling: `:(exclude)*t` matches
exactly the paths ending in `t`, so a path is dropped when some excluded
file type is a suffix of it. -/
def excludedBy (exclude_file_types : List String) (path : String) : Bool :=
  exclude_file_types.any (fun t => t.data.isSuffixOf path.data)

/-- Model of the external tool's selection for the unified diff: a change
is retained when its kind is listed in the `--diff-filter` string and its
path is not matched by an exclusion pathspec. -/
def unified_diff_changes (filter : String) (exclude_file_types : List String)
    (changes : List FileChange) : List FileChange :=
  changes.filter
    (fun c => filter.data.contains c.kind && !excludedBy exclude_file_types c.path)

/-- Model of the external tool's unified-diff output: the concatenated
hunks of the retained changes. -/
def git_unified_diff (filter : String) (exclude_file_types : List String)
    (changes : List FileChange) : String :=
  String.join ((unified_diff_changes filter exclude_file_types changes).map FileChange.hunk)

/-- How the diff-handling part of `main` ends when no exception is raised. -/
inductive MainOutcome where
  | exitedDiffOnly : String → MainOutcome
  | proceededToReview : String → MainOutcome
deriving DecidableEq, Repr

/-- The diff-handling section of `main` (prometh_cli.py:293-307), given the
outputs of the two diff-tool invocations: when the filtered unified diff is
empty an informational notice is printed (returned as the Bool) and
processing continues; the combined diff text is name-status + `"\n\n"` +
filtered diff; under `--show-diff-only` the program prints it and exits
successfully; otherwise, if the combined text is empty an exception is
raised, else the review proceeds. -/
def main_diff_section (diff_name_status_output diff_modified_output : String)
    (show_diff_only : Bool) : Except PyError (MainOutcome × Bool) :=
  let printed_no_modifications := diff_modified_output.length == 0
  let diff_output := diff_name_status_output ++ "\n\n" ++ diff_modified_output
  if show_diff_only then
    Except.ok (MainOutcome.exitedDiffOnly diff_output, printed_no_modifications)
  else if diff_output.length == 0 then
    Except.error (PyError.exception "No diff output. Something is wrong, but I don\x27t care.")
  else
    Except.ok (MainOutcome.proceededToReview diff_output, printed_no_modifications)

end Prometh

namespace Prometh

/-- C2: exact, case-sensitive closed-set dispatch on the model identifier. -/
theorem dispatch_cases (env : LLMEnv) (s : String) (msgs : List Message)
    (url : Option String) (k : String) (hk : env.openaiKey = Option.some k) :
    (isOpenAIGPTType s = true ↔
      s = "gpt-3.5-turbo" ∨ s = "gpt-3.5-turbo-16k" ∨
      s = "gpt-3.5-turbo-0301" ∨ s = "gpt-4") ∧
    (isOpenAIGPTType s = true →
      generate_llm_response env s msgs url =
        Except.ok ((env.hostedBackend s msgs).1,
                   Option.some (env.hostedBackend s msgs).2)) ∧
    (isOpenAIGPTType s = false →
      generate_llm_response env s msgs url =
        Except.ok (env.selfHostedBackend url s msgs, Option.none)) := by
  refine ⟨?_, ?_, ?_⟩
  · simp [isOpenAIGPTType, OPENAI_GPT_TYPES, List.contains_eq_any_beq, or_assoc]
  · intro h
    simp [generate_llm_response, h, hk]
  · intro h
    simp [generate_llm_response, h]

/-- C1: the prompt-building step produces exactly 4 seed messages in the
fixed order [System, User(description), User(diff), User(final
instruction)], and after the first LLM response exactly one Assistant
message is appended at the end, so the returned conversation has exactly
5 messages with roles [system, user, user, user, assistant]. -/
theorem seed_and_first_response_shape (env : LLMEnv)
    (pr_title pr_description diff_output gpt_type : String)
    (pp : Bool) (llm_url : Option String) :
    ((seed_messages pr_title pr_description diff_output).map Message.role =
      ["system", "user", "user", "user"]) ∧
    ∀ r u ms,
      analyze_pr_with_GPT env pr_title pr_description diff_output gpt_type pp
          llm_url = Except.ok (r, u, ms) →
      ms = seed_messages pr_title pr_description diff_output ++
             [{ role := "assistant", content := r }] ∧
      ms.map Message.role = ["system", "user", "user", "user", "assistant"] ∧
      ms.length = 5 := by
  refine ⟨rfl, ?_⟩
  intro r u ms h
  simp only [analyze_pr_with_GPT] at h
  cases hg : generate_llm_response env gpt_type
      (seed_messages pr_title pr_description diff_output) llm_url with
  | error e => rw [hg] at h; exact absurd h (by simp)
  | ok p =>
      rw [hg] at h
      obtain ⟨resp, usage⟩ := p
      simp only [Except.ok.injEq, Prod.mk.injEq] at h
      obtain ⟨hr, hu, hms⟩ := h
      subst hr
      subst hms
      refine ⟨rfl, rfl, rfl⟩

/-- Closed instance of the C1 theorem on a concrete title, description,
diff and model, with the conversation fully evaluated. -/
theorem seed_and_first_response_shape_witness :
    (seed_messages "t" "d" "D").map Message.role =
        ["system", "user", "user", "user"] ∧
    ((seed_messages "t" "d" "D" ++ [Message.mk "assistant" "hosted reply"]) =
        seed_messages "t" "d" "D" ++ [Message.mk "assistant" "hosted reply"] ∧
     (seed_messages "t" "d" "D" ++ [Message.mk "assistant" "hosted reply"]).map
          Message.role = ["system", "user", "user", "user", "assistant"] ∧
     (seed_messages "t" "d" "D" ++ [Message.mk "assistant" "hosted reply"]).length = 5) :=
  ⟨(seed_and_first_response_shape exEnv "t" "d" "D" "gpt-4" false Option.none).1,
   (seed_and_first_response_shape exEnv "t" "d" "D" "gpt-4" false Option.none).2
     "hosted reply" (Option.some ⟨10, 5, 15⟩) _ rfl⟩

/-- Closed instance of the C2 theorem: `"gpt-3.5-turbo"` (in the set) is
routed to the hosted backend with usage metrics, while `"llama-local"` and
the case variant `"GPT-4"` (outside the set) are routed to the self-hosted
backend with no usage metrics. -/
theorem dispatch_cases_witness :
    generate_llm_response exEnv "gpt-3.5-turbo" [Message.mk "user" "hi"] Option.none =
      Except.ok ("hosted reply", Option.some (UsageMetrics.mk 10 5 15)) ∧
    generate_llm_response exEnv "llama-local" [Message.mk "user" "hi"] Option.none =
      Except.ok ("local reply", Option.none) ∧
    generate_llm_response exEnv "GPT-4" [Message.mk "user" "hi"] Option.none =
      Except.ok ("local reply", Option.none) :=
  ⟨(dispatch_cases exEnv "gpt-3.5-turbo" [Message.mk "user" "hi"] Option.none
      "test-key" rfl).2.1 (by decide),
   (dispatch_cases exEnv "llama-local" [Message.mk "user" "hi"] Option.none
      "test-key" rfl).2.2 (by decide),
   (dispatch_cases exEnv "GPT-4" [Message.mk "user" "hi"] Option.none
      "test-key" rfl).2.2 (by decide)⟩

/-- C8 counterexample: `generate_llm_response` does not reject the empty
conversation; with the API key present the hosted request on `[]` is issued
and succeeds, and the self-hosted request on `[]` likewise — it does not
fail with any configuration-level error. -/
theorem empty_conversation_not_rejected :
    generate_llm_response exEnv "gpt-4" [] Option.none =
      Except.ok ("hosted reply", Option.some (UsageMetrics.mk 10 5 15)) ∧
    generate_llm_response exEnv "llama-local" [] (Option.some "http://localhost:8080") =
      Except.ok ("local reply", Option.none) := by
  exact ⟨rfl, rfl⟩

/-- C8 amended: the send operation performs no emptiness validation — the
empty conversation is dispatched to a backend exactly like a non-empty one,
and the only configuration-level failure is a missing `OPENAI_API_KEY` on
the hosted path. -/
theorem empty_conversation_sent_like_any (env : LLMEnv) (gpt : String)
    (url : Option String) :
    (isOpenAIGPTType gpt = true → env.openaiKey = Option.none →
      generate_llm_response env gpt [] url =
        Except.error (PyError.valueError "OPENAI_API_KEY is not set")) ∧
    (isOpenAIGPTType gpt = true → ∀ k, env.openaiKey = Option.some k →
      generate_llm_response env gpt [] url =
        Except.ok ((env.hostedBackend gpt []).1,
                   Option.some (env.hostedBackend gpt []).2)) ∧
    (isOpenAIGPTType gpt = false →
      generate_llm_response env gpt [] url =
        Except.ok (env.selfHostedBackend url gpt [], Option.none)) := by
  refine ⟨?_, ?_, ?_⟩
  · intro h hk
    simp [generate_llm_response, h, hk]
  · intro h k hk
    simp [generate_llm_response, h, hk]
  · intro h
    simp [generate_llm_response, h]

/-- Closed instance of the C8 amended theorem: both dispatch branches on
the empty conversation, evaluated. -/
theorem empty_conversation_sent_like_any_witness :
    generate_llm_response exEnv "gpt-4" [] (Option.some "http://localhost:8080") =
      Except.ok ("hosted reply", Option.some (UsageMetrics.mk 10 5 15)) ∧
    generate_llm_response exEnv "llama-local" [] Option.none =
      Except.ok ("local reply", Option.none) :=
  ⟨(empty_conversation_sent_like_any exEnv "gpt-4"
      (Option.some "http://localhost:8080")).2.1 (by decide) "test-key" rfl,
   (empty_conversation_sent_like_any exEnv "llama-local" Option.none).2.2 (by decide)⟩

/-- Every non-sentinel interactive turn appends only the User message and
then raises `TypeError`, because the call omits `llm_url`. -/
theorem interactive_turn_missing_arg (env : LLMEnv) (llm_type : String)
    (messages : List Message) (user_input : String) (h : user_input ≠ "exit") :
    interactive_turn env llm_type messages user_input =
      TurnOutcome.raised (messages ++ [Message.mk "user" user_input])
        (PyError.typeError
          "generate_llm_response() missing 1 required positional argument: \x27llm_url\x27") := by
  simp [interactive_turn, call_generate_llm_response, h]

/-- C3: at the concrete failing input (model `"gpt-4"`, the seeded
conversation, user input `"hello"`), the interactive turn appends only the
User message and raises `TypeError: generate_llm_response() missing 1
required positional argument: \x27llm_url\x27` — no Assistant reply is
appended and no backend request is issued, because the call site
(prometh_cli.py:338) passes 2 arguments to a 3-argument function. -/
theorem interactive_turn_type_error_at_hello :
    interactive_turn exEnv "gpt-4" (seed_messages "t" "d" "D") "hello" =
      TurnOutcome.raised (seed_messages "t" "d" "D" ++ [Message.mk "user" "hello"])
        (PyError.typeError
          "generate_llm_response() missing 1 required positional argument: \x27llm_url\x27") :=
  rfl

/-- C6: when the backend omits the optional description field, `get_data`
returns a record whose `pr_description` is the empty string, and the fetch
of the remaining fields succeeds unchanged. -/
theorem get_data_missing_description_defaults_empty
    (title selfHref toHash fromHash : String) :
    StashAPI.get_data ⟨title, Option.none, selfHref⟩ ⟨toHash, fromHash⟩ =
      ⟨toHash, fromHash, title, "", selfHref⟩ :=
  rfl

/-- C9: constructing `StashAPI` either fails at the environment lookup with
`KeyError` (token absent) or succeeds storing the looked-up token — the
stored token is a string, never `None`, so the
`ValueError("STASH_HTTP_ACCESS_TOKEN is not set")` branch is unreachable
for every environment. -/
theorem stash_init_value_error_unreachable (environ : String → Option String)
    (base_url project_key repo_slug : String) (pr_id : Int) :
    (environ "STASH_HTTP_ACCESS_TOKEN" = Option.none →
       StashAPI.init environ base_url project_key repo_slug pr_id =
         Except.error PyError.keyError) ∧
    (∀ tok, environ "STASH_HTTP_ACCESS_TOKEN" = Option.some tok →
       StashAPI.init environ base_url project_key repo_slug pr_id =
         Except.ok ⟨tok, base_url, project_key, repo_slug, pr_id,
                    [("Authorization", "Bearer " ++ tok),
                     ("Accept", "application/json")]⟩) ∧
    (∀ msg, StashAPI.init environ base_url project_key repo_slug pr_id ≠
       Except.error (PyError.valueError msg)) := by
  refine ⟨?_, ?_, ?_⟩
  · intro h
    simp [StashAPI.init, h]
  · intro tok h
    simp [StashAPI.init, h]
  · intro msg
    cases h : environ "STASH_HTTP_ACCESS_TOKEN" with
    | none => simp [StashAPI.init, h]
    | some tok => simp [StashAPI.init, h]

/-- Closed instance of the C9 theorem: an environment without the token
fails with `KeyError` (not `ValueError`), and one with the token succeeds. -/
theorem stash_init_value_error_unreachable_witness :
    StashAPI.init (fun _ => Option.none) "host" "PK" "repo" 7 =
      Except.error PyError.keyError ∧
    StashAPI.init (fun _ => Option.some "tok123") "host" "PK" "repo" 7 =
      Except.ok ⟨"tok123", "host", "PK", "repo", 7,
                 [("Authorization", "Bearer " ++ "tok123"),
                  ("Accept", "application/json")]⟩ ∧
    StashAPI.init (fun _ => Option.none) "host" "PK" "repo" 7 ≠
      Except.error (PyError.valueError "STASH_HTTP_ACCESS_TOKEN is not set") :=
  ⟨(stash_init_value_error_unreachable (fun _ => Option.none) "host" "PK" "repo" 7).1 rfl,
   (stash_init_value_error_unreachable (fun _ => Option.some "tok123")
      "host" "PK" "repo" 7).2.1 "tok123" rfl,
   (stash_init_value_error_unreachable (fun _ => Option.none) "host" "PK" "repo" 7).2.2 _⟩

/-- C4 counterexample: with excluded file type `"md"` the command line
contains no argument equal to `"*.md"` (the exclusion argument built by the
code is `":(exclude)*md"`), and a diff bundle for a pull request that
modifies only `README.md` still lists that `.md` path in its (unfiltered)
name-status part. -/
theorem exclude_md_star_glob_absent :
    "*.md" ∉ unified_diff_cmd false 10 "a1" "b2" ["md"] ∧
    git_name_status [FileChange.mk 'M' "README.md" "@@ -1 +1 @@"] ++ "\n\n" ++
        git_unified_diff (diff_filter false) ["md"]
          [FileChange.mk 'M' "README.md" "@@ -1 +1 @@"] =
      "M\tREADME.md\n" ++ "\n\n" ++ "" := by
  refine ⟨by decide, rfl⟩

/-- C4 amended: with excluded file type `"md"` the unified-diff command
line carries the exclusion argument `":(exclude)*md"` (not `"*.md"`)
appended after the path-separator marker `"--"` and the pathspec `"."`;
the glob `*md` drops every path ending in `"md"`, so no change whose path
ends in `".md"` contributes to the filtered unified-diff output (the
unfiltered name-status listing may still contain such paths). -/
theorem exclude_md_pathspec (exh : Bool) (n : Int) (f t : String)
    (changes : List FileChange) :
    unified_diff_cmd exh n f t ["md"] =
      ["git", "diff", "--diff-filter=" ++ diff_filter exh,
       "-U" ++ toString n, f, t, "--", ".", ":(exclude)*md"] ∧
    ∀ c ∈ unified_diff_changes (diff_filter exh) ["md"] changes,
      (".md").data.isSuffixOf c.path.data = false := by
  constructor
  · simp [unified_diff_cmd]
  · intro c hc
    simp only [unified_diff_changes, List.mem_filter, Bool.and_eq_true,
      Bool.not_eq_true'] at hc
    have hex : excludedBy ["md"] c.path = false := hc.2.2
    have hex' : ¬ (("md").data <:+ c.path.data) := by
      intro hsuf
      have hs : ("md").data.isSuffixOf c.path.data = true := by
        rw [List.isSuffixOf_iff_suffix]
        exact hsuf
      simp [excludedBy, hs] at hex
    by_contra hmd
    rw [Bool.not_eq_false, List.isSuffixOf_iff_suffix] at hmd
    exact hex' (List.IsSuffix.trans ⟨['.'], rfl⟩ hmd)

/-- Closed instance of the C4 amended theorem: the concrete command line
for `["md"]`, and a surviving non-`.md` change. -/
theorem exclude_md_pathspec_witness :
    unified_diff_cmd false 10 "a1" "b2" ["md"] =
      ["git", "diff", "--diff-filter=" ++ diff_filter false,
       "-U" ++ toString (10 : Int), "a1", "b2", "--", ".", ":(exclude)*md"] ∧
    (".md").data.isSuffixOf ("app.py").data = false :=
  ⟨(exclude_md_pathspec false 10 "a1" "b2" [FileChange.mk 'M' "app.py" "@@"]).1,
   (exclude_md_pathspec false 10 "a1" "b2" [FileChange.mk 'M' "app.py" "@@"]).2
     (FileChange.mk 'M' "app.py" "@@") (by decide)⟩

/-- C7: the name-status call carries no change-kind filter argument; the
unified diff is filtered to Modified only (`"M"`), extended to exactly
Modified plus Added (`"MA"`) under exhaustive analysis; and the extended
filter retains a superset of the changes retained by the Modified-only
filter. -/
theorem name_status_unfiltered_and_filter_monotone (f t : String)
    (excl : List String) (changes : List FileChange) :
    name_status_cmd f t = ["git", "diff", "--name-status", f, t] ∧
    (∀ a ∈ ["git", "diff", "--name-status"],
        ("--diff-filter=").data.isPrefixOf a.data = false) ∧
    diff_filter false = "M" ∧
    diff_filter true = "MA" ∧
    (∀ k : Char, ((diff_filter false).data.contains k = true) ↔ k = 'M') ∧
    (∀ k : Char, ((diff_filter true).data.contains k = true) ↔ k = 'M' ∨ k = 'A') ∧
    (∀ c ∈ unified_diff_changes (diff_filter false) excl changes,
        c ∈ unified_diff_changes (diff_filter true) excl changes) := by
  have hM : (diff_filter false).data = ['M'] := rfl
  have hMA : (diff_filter true).data = ['M', 'A'] := rfl
  refine ⟨rfl, by decide, rfl, rfl, ?_, ?_, ?_⟩
  · intro k
    rw [hM]
    simp [List.contains_eq_any_beq]
  · intro k
    rw [hMA]
    simp [List.contains_eq_any_beq]
  · intro c hc
    simp only [unified_diff_changes, List.mem_filter, Bool.and_eq_true] at hc ⊢
    obtain ⟨hmem, hkind, hexc⟩ := hc
    refine ⟨hmem, ?_, hexc⟩
    rw [hM] at hkind
    rw [hMA]
    simp only [List.contains_eq_any_beq, List.any_cons, List.any_nil,
      Bool.or_false, beq_iff_eq] at hkind ⊢
    simp [hkind]

/-- Closed instance of the C7 theorem at a concrete range and change set. -/
theorem name_status_unfiltered_and_filter_monotone_witness :
    name_status_cmd "a1" "b2" = ["git", "diff", "--name-status", "a1", "b2"] ∧
    ("--diff-filter=").data.isPrefixOf ("git").data = false ∧
    ((diff_filter false).data.contains 'A' = true ↔ 'A' = 'M') ∧
    ((diff_filter true).data.contains 'A' = true ↔ 'A' = 'M' ∨ 'A' = 'A') ∧
    FileChange.mk 'M' "x.py" "@@" ∈
      unified_diff_changes (diff_filter true) [] [FileChange.mk 'M' "x.py" "@@"] :=
  ⟨(name_status_unfiltered_and_filter_monotone "a1" "b2" []
      [FileChange.mk 'M' "x.py" "@@"]).1,
   (name_status_unfiltered_and_filter_monotone "a1" "b2" []
      [FileChange.mk 'M' "x.py" "@@"]).2.1 "git" (by decide),
   (name_status_unfiltered_and_filter_monotone "a1" "b2" []
      [FileChange.mk 'M' "x.py" "@@"]).2.2.2.2.1 'A',
   (name_status_unfiltered_and_filter_monotone "a1" "b2" []
      [FileChange.mk 'M' "x.py" "@@"]).2.2.2.2.2.1 'A',
   (name_status_unfiltered_and_filter_monotone "a1" "b2" []
      [FileChange.mk 'M' "x.py" "@@"]).2.2.2.2.2.2
     (FileChange.mk 'M' "x.py" "@@") (by decide)⟩

/-- C5: a zero-length filtered unified diff is not an error: the
informational notice is printed (second component `true`), and the program
either exits successfully when only the diff was requested or proceeds to
the LLM review; no exception is raised. -/
theorem empty_filtered_diff_not_an_error (ns : String) :
    main_diff_section ns "" true =
      Except.ok (MainOutcome.exitedDiffOnly (ns ++ "\n\n" ++ ""), true) ∧
    main_diff_section ns "" false =
      Except.ok (MainOutcome.proceededToReview (ns ++ "\n\n" ++ ""), true) := by
  have h2 : ("\n\n" : String).length = 2 := rfl
  constructor
  · rfl
  · simp [main_diff_section, String.length_append, h2]

/-- C10: the combined diff text `name-status ++ "\n\n" ++ filtered-diff`
always has length at least 2, so the guard raising the "No diff output"
exception is unreachable: the diff-handling section never returns an
error, for any tool outputs and mode. -/
theorem no_diff_output_exception_unreachable (ns fd : String) (sdo : Bool) :
    2 ≤ (ns ++ "\n\n" ++ fd).length ∧
    ∀ e : PyError, main_diff_section ns fd sdo ≠ Except.error e := by
  have hlen : (ns ++ "\n\n" ++ fd).length = ns.length + 2 + fd.length := by
    have h2 : ("\n\n" : String).length = 2 := rfl
    simp [String.length_append, h2]
  constructor
  · omega
  · intro e
    cases sdo with
    | true => simp [main_diff_section]
    | false =>
        have h2 : ("\n\n" : String).length = 2 := rfl
        simp [main_diff_section, String.length_append, h2]

end Prometh
